import Mathlib

/-!
Shallow embedding of `src/mtg-filter.py` (class `CardFilter` and its
construction from parsed command-line arguments), together with theorems
about its behaviour.

Modelling conventions:
* A Python card face dictionary becomes the structure `Face`.  The keys
  `colors` and `types` are accessed unconditionally in the source, so they
  are plain fields; `power`, `toughness` and `convertedManaCost` are read
  with `.get`, so they are `Option` fields.  JSON numbers are modelled as
  rationals, CLI integer options as integers.
* Python truthiness is made explicit: `truthyList` and `truthyInt` embed
  `if args.x:` for list-valued and integer-valued options.
* `str.isnumeric` is modelled for decimal-digit strings (the only numeric
  characters occurring in the data) as: nonempty and all characters are
  decimal digits; `int(...)` on such a string is `strToNat`.
* The insertion-ordered Python dict of cards becomes an association list
  `List (String × List Face)`.
* A raised `TypeError` (iterating `self.criteria` when it is `None`)
  is modelled by the `none` value of an `Option` result.
-/

/-- One face record of a card, as read from the JSON data. -/
structure Face where
  colors : List String
  types : List String
  power : Option String
  toughness : Option String
  convertedManaCost : Option ℚ

/-- The parsed command-line options (`argparse` namespace); every option
defaults to `None`. -/
structure Args where
  colors_only : Option (List String) := none
  colors_all : Option (List String) := none
  power_min : Option Int := none
  power_max : Option Int := none
  tough_min : Option Int := none
  tough_max : Option Int := none
  types_only : Option (List String) := none
  types_all : Option (List String) := none
  cmc_min : Option Int := none
  cmc_max : Option Int := none

/-- Python truthiness of an optional list: `None` and `[]` are falsy. -/
def truthyList (o : Option (List String)) : Bool :=
  match o with
  | none => false
  | some l => !l.isEmpty

/-- Python truthiness of an optional integer: `None` and `0` are falsy. -/
def truthyInt (o : Option Int) : Bool :=
  match o with
  | none => false
  | some n => n != 0

/-- Embeds `set(a) <= set(b)` on lists of strings: every element of `a`
occurs in `b`. -/
def setSubset (a b : List String) : Bool :=
  a.all (fun x => b.contains x)

/-- Embeds `str.isnumeric` for decimal-digit strings: nonempty and all
characters are digits. -/
def isnumeric (s : String) : Bool :=
  !s.data.isEmpty && s.data.all (fun c => c.isDigit)

/-- Embeds `int(p)` for a decimal-digit string. -/
def strToNat (s : String) : Nat :=
  s.data.foldl (fun n c => n * 10 + (c.toNat - 48)) 0

/-- The required-colors lambda of `from_args`:
`set(args.colors_all) <= set(face['colors'])`. -/
def colorsAllCheck (a : Args) (face : Face) : Bool :=
  setSubset (a.colors_all.getD []) face.colors

/-- The accepted-colors lambda of `from_args`:
`set(face['colors']) <= accepted`. -/
def colorsOnlyCheck (a : Args) (face : Face) : Bool :=
  setSubset face.colors (a.colors_only.getD [])

/-- The required-types lambda of `from_args`:
`required <= set(face['types'])`. -/
def typesAllCheck (a : Args) (face : Face) : Bool :=
  setSubset (a.types_all.getD []) face.types

/-- The accepted-types lambda of `from_args`:
`set(face['types']) <= accepted`. -/
def typesOnlyCheck (a : Args) (face : Face) : Bool :=
  setSubset face.types (a.types_only.getD [])

/-- Embeds `power_check` of `from_args`.  `min` is
`int(args.power_min) if args.power_min else None` (so a given bound of 0
becomes `None`), likewise `max`; a missing or non-numeric `power` fails;
otherwise the value must lie in `[min or 0, max or 9999]`. -/
def power_check (a : Args) (face : Face) : Bool :=
  let mn : Option Int := if truthyInt a.power_min then a.power_min else none
  let mx : Option Int := if truthyInt a.power_max then a.power_max else none
  match face.power with
  | none => false
  | some p =>
    if !isnumeric p then false
    else decide (mn.getD 0 ≤ (strToNat p : Int) ∧ (strToNat p : Int) ≤ mx.getD 9999)

/-- Embeds `toughness_check` of `from_args`; same shape as `power_check`
applied to the `toughness` field. -/
def toughness_check (a : Args) (face : Face) : Bool :=
  let mn : Option Int := if truthyInt a.tough_min then a.tough_min else none
  let mx : Option Int := if truthyInt a.tough_max then a.tough_max else none
  match face.toughness with
  | none => false
  | some t =>
    if !isnumeric t then false
    else decide (mn.getD 0 ≤ (strToNat t : Int) ∧ (strToNat t : Int) ≤ mx.getD 9999)

/-- Embeds `cmc_check` of `from_args`.  `min` is
`float(args.cmc_min) if args.cmc_min else 0`, likewise `max` with default
9999; a missing or falsy (zero) `convertedManaCost` fails; otherwise the
value must lie in `[min, max]`. -/
def cmc_check (a : Args) (face : Face) : Bool :=
  let mn : ℚ := if truthyInt a.cmc_min then ((a.cmc_min.getD 0 : Int) : ℚ) else 0
  let mx : ℚ := if truthyInt a.cmc_max then ((a.cmc_max.getD 0 : Int) : ℚ) else 9999
  match face.convertedManaCost with
  | none => false
  | some c => if c == 0 then false else decide (mn ≤ c ∧ c ≤ mx)

/-- The filter object: its single attribute is the list of criteria, or
`none` when `__init__` received a falsy (empty) list. -/
structure CardFilter where
  criteria : Option (List (Face → Bool))

/-- Embeds `__init__`: `self.criteria = criteria if criteria else None`. -/
def CardFilter.init (cs : List (Face → Bool)) : CardFilter :=
  ⟨if cs.isEmpty then none else some cs⟩

/-- Embeds `CardFilter.from_args`: one criterion is appended per truthy
constraint option, in source order, and the resulting list is passed to
`__init__`. -/
def CardFilter.from_args (a : Args) : CardFilter :=
  CardFilter.init
    ((if truthyList a.colors_all then [colorsAllCheck a] else []) ++
     (if truthyList a.colors_only then [colorsOnlyCheck a] else []) ++
     (if truthyInt a.power_min || truthyInt a.power_max then [power_check a] else []) ++
     (if truthyInt a.tough_min || truthyInt a.tough_max then [toughness_check a] else []) ++
     (if truthyList a.types_all then [typesAllCheck a] else []) ++
     (if truthyList a.types_only then [typesOnlyCheck a] else []) ++
     (if truthyInt a.cmc_min || truthyInt a.cmc_max then [cmc_check a] else []))

/-- Embeds `CardFilter.match`:
`not any(not criterion(face) for criterion in self.criteria)`.  When
`self.criteria` is `None` the iteration raises `TypeError`, modelled as
`none`. -/
def CardFilter.matchFace (cf : CardFilter) (face : Face) : Option Bool :=
  match cf.criteria with
  | none => none
  | some cs => some (!cs.any (fun c => !(c face)))

/-- Embeds `CardFilter.matches`: scans the faces in order and returns
`True` at the first face accepted by `match`; `False` when the faces are
exhausted.  An exception raised by `match` propagates. -/
def CardFilter.matches (cf : CardFilter) : List Face → Option Bool
  | [] => some false
  | f :: rest =>
    match cf.matchFace f with
    | none => none
    | some true => some true
    | some false => cf.matches rest

/-- Embeds `CardFilter.filter`: the dict comprehension keeping the entries
whose faces satisfy `matches`, in input order.  An exception raised by
`matches` propagates. -/
def CardFilter.filter (cf : CardFilter) : List (String × List Face) → Option (List (String × List Face))
  | [] => some []
  | e :: rest =>
    match cf.matches e.2 with
    | none => none
    | some b =>
      match cf.filter rest with
      | none => none
      | some out => some (if b then e :: out else out)

/-- The number of criteria held by a filter (`len(self.criteria)` when the
attribute is a list, 0 when it is `None`). -/
def numCriteria (cf : CardFilter) : Nat :=
  (cf.criteria.getD []).length

/-- The number of constraint categories that are active (truthy) in a
configuration, one per category of `from_args`. -/
def countActive (a : Args) : Nat :=
  (if truthyList a.colors_all then 1 else 0) +
  ((if truthyList a.colors_only then 1 else 0) +
   ((if truthyInt a.power_min || truthyInt a.power_max then 1 else 0) +
    ((if truthyInt a.tough_min || truthyInt a.tough_max then 1 else 0) +
     ((if truthyList a.types_all then 1 else 0) +
      ((if truthyList a.types_only then 1 else 0) +
       (if truthyInt a.cmc_min || truthyInt a.cmc_max then 1 else 0))))))

/-- The lower bound actually used by the range checks: a given nonzero
bound, else 0. -/
def boundLo (b : Option Int) : Int :=
  match b with
  | some n => if n = 0 then 0 else n
  | none => 0

/-- The upper bound actually used by the range checks: a given nonzero
bound, else the default `d`. -/
def boundHi (b : Option Int) (d : Int) : Int :=
  match b with
  | some n => if n = 0 then d else n
  | none => d

/-- The power predicate as the claim states it, written from the words of
the claim for comparison with `power_check`: bounds are `min` if given
else 0 and `max` if given else 9999, with no special treatment of a
given bound equal to 0. -/
def power_check_claimed (a : Args) (face : Face) : Bool :=
  match face.power with
  | none => false
  | some p =>
    if !isnumeric p then false
    else decide (a.power_min.getD 0 ≤ (strToNat p : Int) ∧
      (strToNat p : Int) ≤ a.power_max.getD 9999)

/-- The mana-cost predicate as the claim states it, written from the words
of the claim for comparison with `cmc_check`: rejects a zero cost, and
otherwise uses bounds `min` if given else 0 and `max` if given else 9999,
with no special treatment of a given bound equal to 0. -/
def cmc_check_claimed (a : Args) (face : Face) : Bool :=
  match face.convertedManaCost with
  | none => false
  | some c =>
    if c == 0 then false
    else decide (((a.cmc_min.getD 0 : Int) : ℚ) ≤ c ∧
      c ≤ ((a.cmc_max.getD 9999 : Int) : ℚ))

/-- Sample face: a basic land (no colors, zero mana cost, no power). -/
def forestFace : Face := ⟨[], ["Land"], none, none, some 0⟩

/-- Sample face: a green creature. -/
def bearFace : Face := ⟨["G"], ["Creature"], some "2", some "2", some 2⟩

/-- Sample face: a red-green creature. -/
def gruulFace : Face := ⟨["R", "G"], ["Creature"], some "3", some "3", some 2⟩

/-- Sample face: a creature with power and toughness -1. -/
def negPowerFace : Face := ⟨["B"], ["Creature"], some "-1", some "-1", some 1⟩

/-- The configuration with no constraint given. -/
def noArgs : Args := {}

/-- The configuration requiring the Land type. -/
def landArgs : Args := { types_all := some ["Land"] }

/-- The filter built from `landArgs`. -/
def landFilter : CardFilter := CardFilter.from_args landArgs

/-- The same criteria list passed to `__init__` directly. -/
def landFilter2 : CardFilter := CardFilter.init [typesAllCheck landArgs]

/-- Sample card mapping with two cards. -/
def sampleCards : List (String × List Face) :=
  [("Forest", [forestFace]), ("Bear", [bearFace])]

/-- Configuration requiring red. -/
def reqR : Args := { colors_all := some ["R"] }

/-- Configuration requiring red and green. -/
def reqRG : Args := { colors_all := some ["R", "G"] }

/-- A `match` result is the `TypeError` value exactly when the criteria
attribute is `None`. -/
theorem matchFace_eq_none_iff (cf : CardFilter) (face : Face) :
    cf.matchFace face = none ↔ cf.criteria = none := by
  cases h : cf.criteria <;> simp [CardFilter.matchFace, h]

/-- When the criteria attribute is a list, `matches` returns a Boolean:
true exactly when some face passes every criterion. -/
theorem matches_eq_of_criteria (cf : CardFilter) (cs : List (Face → Bool))
    (h : cf.criteria = some cs) (faces : List Face) :
    cf.matches faces = some (faces.any fun f => !cs.any fun c => !(c f)) := by
  induction faces with
  | nil => simp [CardFilter.matches]
  | cons f rest ih =>
    simp only [CardFilter.matches, CardFilter.matchFace, h]
    cases hb : (!cs.any fun c => !(c f)) <;> simp [hb, ih]

/-- A successful `filter` run returns a sublist of the input entries. -/
theorem filter_sublist_of_some (cf : CardFilter) (cards : List (String × List Face)) :
    ∀ out, cf.filter cards = some out → out.Sublist cards := by
  induction cards with
  | nil =>
    intro out h
    simp only [CardFilter.filter, Option.some.injEq] at h
    subst h
    exact List.Sublist.refl _
  | cons e rest ih =>
    intro out h
    simp only [CardFilter.filter] at h
    cases hm : cf.matches e.2 <;> rw [hm] at h
    · exact Option.noConfusion h
    · rename_i b
      cases hf : cf.filter rest <;> rw [hf] at h
      · exact Option.noConfusion h
      · rename_i out2
        have h2 : (if b then e :: out2 else out2) = out := by
          simpa using h
        subst h2
        cases b
        · exact (ih out2 hf).cons e
        · exact (ih out2 hf).cons₂ e

/-- The criteria count of a constructed filter is the length of the list
given to `__init__`. -/
theorem numCriteria_init (cs : List (Face → Bool)) :
    numCriteria (CardFilter.init cs) = cs.length := by
  cases cs <;> simp [CardFilter.init, numCriteria]


/-- Claim C1. The spec states that with zero active categories `filter` is
the identity and `match` accepts every face; in the code, `__init__` turns
the empty criteria list into `None` and `match` then raises a `TypeError`
while iterating it, so `filter` raises instead of returning the input. -/
theorem noConstraints_raises :
    (CardFilter.from_args noArgs).criteria = none ∧
    (CardFilter.from_args noArgs).matchFace forestFace = none ∧
    (CardFilter.from_args noArgs).filter [("Forest", [forestFace])] = none :=
  ⟨rfl, rfl, rfl⟩

/-- Claim C5. `matches` is true iff some face of the card satisfies
`match`, and on an empty face sequence `matches` is false. -/
theorem matches_iff_exists_match (cf : CardFilter) (faces : List Face) :
    (cf.matches faces = some true ↔ ∃ f ∈ faces, cf.matchFace f = some true) ∧
    cf.matches [] = some false := by
  refine ⟨?_, rfl⟩
  induction faces with
  | nil => simp [CardFilter.matches]
  | cons f rest ih =>
    cases hm : cf.matchFace f with
    | none =>
      have hc : cf.criteria = none := (matchFace_eq_none_iff cf f).mp hm
      simp only [CardFilter.matches, hm]
      constructor
      · intro h
        exact Option.noConfusion h
      · rintro ⟨g, _, hgt⟩
        rw [CardFilter.matchFace, hc] at hgt
        exact Option.noConfusion hgt
    | some b =>
      cases b with
      | true =>
        simp only [CardFilter.matches, hm]
        exact ⟨fun _ => ⟨f, List.mem_cons_self f rest, hm⟩, fun _ => trivial⟩
      | false =>
        simp only [CardFilter.matches, hm]
        rw [ih]
        constructor
        · rintro ⟨g, hg, hgt⟩
          exact ⟨g, List.mem_cons_of_mem f hg, hgt⟩
        · rintro ⟨g, hg, hgt⟩
          rcases List.mem_cons.mp hg with rfl | hg2
          · rw [hm] at hgt
            simp at hgt
          · exact ⟨g, hg2, hgt⟩

/-- Claim C6. When the criteria attribute is a list, `filter` returns
exactly the entries whose faces satisfy `matches`, in input order (the
result is a sublist of the input, each name still bound to its original
face list); no sorting is applied. -/
theorem filter_eq_list_filter (cf : CardFilter) (cs : List (Face → Bool))
    (cards : List (String × List Face)) (h : cf.criteria = some cs) :
    cf.filter cards = some (cards.filter fun e => cf.matches e.2 == some true) ∧
    (cards.filter fun e => cf.matches e.2 == some true).Sublist cards := by
  refine ⟨?_, List.filter_sublist _⟩
  induction cards with
  | nil => simp [CardFilter.filter]
  | cons e rest ih =>
    simp only [CardFilter.filter]
    rw [matches_eq_of_criteria cf cs h e.2, ih]
    cases hb : (e.2.any fun f => !cs.any fun c => !(c f)) <;>
      simp [List.filter_cons, matches_eq_of_criteria cf cs h, hb]

/-- Witness for claim C6 at a concrete filter and card mapping. -/
theorem filter_eq_list_filter_witness :
    landFilter.filter sampleCards =
      some (sampleCards.filter fun e => landFilter.matches e.2 == some true) ∧
    (sampleCards.filter fun e => landFilter.matches e.2 == some true).Sublist sampleCards :=
  filter_eq_list_filter landFilter [typesAllCheck landArgs] sampleCards rfl

/-- Claim C7. The required-colors predicate accepts a face exactly when
the required set is contained in the face colors, and it is antitone in
the required set: enlarging the required set can only turn acceptance
into rejection. -/
theorem colorsAll_subset_and_antitone (a a2 : Args) (R R2 : List String) (face : Face)
    (h : a.colors_all = some R) (h2 : a2.colors_all = some R2) :
    (colorsAllCheck a face = true ↔ ∀ c ∈ R, c ∈ face.colors) ∧
    ((∀ c ∈ R, c ∈ R2) → colorsAllCheck a2 face = true → colorsAllCheck a face = true) := by
  have key : ∀ (a3 : Args) (R3 : List String), a3.colors_all = some R3 →
      (colorsAllCheck a3 face = true ↔ ∀ c ∈ R3, c ∈ face.colors) := by
    intro a3 R3 h3
    simp [colorsAllCheck, setSubset, h3, List.all_eq_true]
  refine ⟨key a R h, fun hsub hacc => ?_⟩
  exact (key a R h).mpr fun c hc => (key a2 R2 h2).mp hacc c (hsub c hc)

/-- Witness for claim C7 at concrete required sets and a concrete face. -/
theorem colorsAll_witness :
    colorsAllCheck reqR gruulFace = true ∧
    (colorsAllCheck reqRG gruulFace = true → colorsAllCheck reqR gruulFace = true) := by
  have h := colorsAll_subset_and_antitone reqR reqRG ["R"] ["R", "G"] gruulFace rfl rfl
  exact ⟨h.1.mpr (by decide), h.2 (by decide)⟩

/-- Claim C8. The matching functions are pure: their results depend only
on the criteria attribute and their arguments, and a successful `filter`
returns entries of the input unchanged (a sublist of the input, so every
output binding is an original binding). -/
theorem pure_of_criteria (cf cf2 : CardFilter) (h : cf.criteria = cf2.criteria) :
    (∀ face, cf.matchFace face = cf2.matchFace face) ∧
    (∀ faces, cf.matches faces = cf2.matches faces) ∧
    (∀ cards, cf.filter cards = cf2.filter cards) ∧
    (∀ cards out, cf.filter cards = some out →
      out.Sublist cards ∧ ∀ e ∈ out, e ∈ cards) := by
  have hcf : cf = cf2 := by
    cases cf
    cases cf2
    simpa using h
  subst hcf
  refine ⟨fun _ => rfl, fun _ => rfl, fun _ => rfl, fun cards out hf => ?_⟩
  have hs := filter_sublist_of_some cf cards out hf
  exact ⟨hs, fun e he => hs.subset he⟩

/-- Witness for claim C8 at concrete filters and a concrete card mapping. -/
theorem pure_of_criteria_witness :
    landFilter.matchFace forestFace = landFilter2.matchFace forestFace ∧
    [("Forest", [forestFace])].Sublist sampleCards ∧
    ("Forest", [forestFace]) ∈ sampleCards := by
  have h := pure_of_criteria landFilter landFilter2 rfl
  have h2 := h.2.2.2 sampleCards [("Forest", [forestFace])] rfl
  exact ⟨h.1 forestFace, h2.1, h2.2 ("Forest", [forestFace]) (by simp)⟩

/-- The lower bound appearing inside the range checks equals `boundLo`. -/
theorem getD_zero_eq_boundLo (b : Option Int) :
    (if truthyInt b then b else none).getD 0 = boundLo b := by
  cases b with
  | none => simp [truthyInt, boundLo]
  | some n =>
    by_cases hn : n = 0 <;> simp [truthyInt, boundLo, hn]

/-- The upper bound appearing inside the range checks equals `boundHi`. -/
theorem getD_default_eq_boundHi (b : Option Int) (d : Int) :
    (if truthyInt b then b else none).getD d = boundHi b d := by
  cases b with
  | none => simp [truthyInt, boundHi]
  | some n =>
    by_cases hn : n = 0 <;> simp [truthyInt, boundHi, hn]

/-- With default 0 the upper-bound computation coincides with the
lower-bound computation. -/
theorem boundHi_zero (b : Option Int) : boundHi b 0 = boundLo b := by
  cases b <;> rfl

/-- Counterexample to claim C2 as stated: with `cmc_min = 1` and
`cmc_max = 0` the mana-cost constraint is active, and a face with cost
500 is accepted by the code although 500 does not lie in the stated
interval [1, 0]. -/
theorem cmc_zeroMax_counterexample :
    cmc_check { cmc_min := some 1, cmc_max := some 0 } ⟨[], [], none, none, some 500⟩ = true ∧
    cmc_check_claimed { cmc_min := some 1, cmc_max := some 0 } ⟨[], [], none, none, some 500⟩ = false := by
  refine ⟨by decide, by decide⟩

/-- Claim C2 (amended). The mana-cost predicate rejects a face whose cost
is exactly 0 or missing, and otherwise accepts exactly when the cost lies
in the interval whose lower bound is the minimum if given and nonzero
(else 0) and whose upper bound is the maximum if given and nonzero
(else 9999). -/
theorem cmc_check_iff (a : Args) (f : Face) :
    cmc_check a f = true ↔
      ∃ c, f.convertedManaCost = some c ∧ c ≠ 0 ∧
        ((boundLo a.cmc_min : ℚ) ≤ c ∧ c ≤ (boundHi a.cmc_max 9999 : ℚ)) := by
  have hlo : (if truthyInt a.cmc_min then ((a.cmc_min.getD 0 : Int) : ℚ) else 0) =
      ((boundLo a.cmc_min : Int) : ℚ) := by
    cases hm : a.cmc_min with
    | none => simp [truthyInt, boundLo]
    | some n => by_cases hn : n = 0 <;> simp [truthyInt, boundLo, hn]
  have hhi : (if truthyInt a.cmc_max then ((a.cmc_max.getD 0 : Int) : ℚ) else 9999) =
      ((boundHi a.cmc_max 9999 : Int) : ℚ) := by
    cases hm : a.cmc_max with
    | none => simp [truthyInt, boundHi]
    | some n => by_cases hn : n = 0 <;> simp [truthyInt, boundHi, hn]
  cases hc : f.convertedManaCost with
  | none => simp [cmc_check, hc]
  | some c =>
    by_cases h0 : c = 0
    · simp [cmc_check, hc, h0]
    · simp [cmc_check, hc, h0, hlo, hhi]

/-- Counterexample to claim C4 as stated: with `power_min = 1` and
`power_max = 0` the power constraint is active, and a face with power
"5" is accepted by the code although 5 does not lie in the stated
interval [1, 0]. -/
theorem power_zeroMax_counterexample :
    power_check { power_min := some 1, power_max := some 0 } ⟨[], [], some "5", none, none⟩ = true ∧
    power_check_claimed { power_min := some 1, power_max := some 0 } ⟨[], [], some "5", none, none⟩ = false := by
  refine ⟨by decide, by decide⟩

/-- Claim C4 (amended). The power and toughness predicates accept a face
exactly when the field is present, a numeric string, and its integer
value lies in the interval whose lower bound is the minimum if given and
nonzero (else 0) and whose upper bound is the maximum if given and
nonzero (else 9999); a face with a missing or non-numeric field is
rejected regardless of the requested range. -/
theorem power_toughness_check_iff (a : Args) (f : Face) :
    (power_check a f = true ↔ ∃ s, f.power = some s ∧ isnumeric s = true ∧
       boundLo a.power_min ≤ (strToNat s : Int) ∧
       (strToNat s : Int) ≤ boundHi a.power_max 9999) ∧
    (toughness_check a f = true ↔ ∃ s, f.toughness = some s ∧ isnumeric s = true ∧
       boundLo a.tough_min ≤ (strToNat s : Int) ∧
       (strToNat s : Int) ≤ boundHi a.tough_max 9999) := by
  constructor
  · cases hp : f.power with
    | none => simp [power_check, hp]
    | some s =>
      cases hn : isnumeric s <;>
        simp [power_check, hp, hn, getD_zero_eq_boundLo, getD_default_eq_boundHi,
          boundHi_zero, and_assoc]
  · cases ht : f.toughness with
    | none => simp [toughness_check, ht]
    | some s =>
      cases hn : isnumeric s <;>
        simp [toughness_check, ht, hn, getD_zero_eq_boundLo, getD_default_eq_boundHi,
          boundHi_zero, and_assoc]

/-- Counterexample to claim C3 as stated: giving `power_min = 0` (and no
other constraint) does not make the power predicate present — the
criteria count is 0, not 1, because 0 is falsy in the activation test. -/
theorem criteria_count_counterexample :
    numCriteria (CardFilter.from_args { power_min := some 0 }) ≠ 1 := by
  decide

/-- Claim C3 (amended). The criteria list contains exactly one predicate
per active constraint category, where a list category is active when its
option is given and nonempty and a range category is active when either
bound is given with a nonzero value; a bound given as 0 counts as
absent. -/
theorem criteria_count_eq_active (a : Args) :
    numCriteria (CardFilter.from_args a) = countActive a := by
  rw [CardFilter.from_args, numCriteria_init]
  simp [countActive, List.length_append, apply_ite List.length]

/-- Claim C9. A face whose power (resp. toughness) string contains a
character that is not a decimal digit is rejected by the power
(resp. toughness) predicate regardless of the requested range, so
negative and fractional values can never satisfy it. -/
theorem nonNumeric_rejected (a : Args) (f : Face) (s : String) :
    (f.power = some s → (∃ c ∈ s.data, c.isDigit = false) →
      power_check a f = false) ∧
    (f.toughness = some s → (∃ c ∈ s.data, c.isDigit = false) →
      toughness_check a f = false) := by
  have hnum : (∃ c ∈ s.data, c.isDigit = false) → isnumeric s = false := by
    rintro ⟨c, hc, hd⟩
    rw [Bool.eq_false_iff]
    intro habs
    rw [isnumeric, Bool.and_eq_true, List.all_eq_true] at habs
    have := habs.2 c hc
    rw [hd] at this
    exact Bool.noConfusion this
  constructor
  · intro hp hex
    simp [power_check, hp, hnum hex]
  · intro ht hex
    simp [toughness_check, ht, hnum hex]

/-- Witness for claim C9 at a concrete face with power and toughness
"-1". -/
theorem nonNumeric_rejected_witness :
    power_check { power_min := some 1 } negPowerFace = false ∧
    toughness_check { tough_min := some 1 } negPowerFace = false := by
  have h1 := nonNumeric_rejected { power_min := some 1 } negPowerFace "-1"
  have h2 := nonNumeric_rejected { tough_min := some 1 } negPowerFace "-1"
  exact ⟨h1.1 rfl ⟨'-', by decide, by decide⟩, h2.2 rfl ⟨'-', by decide, by decide⟩⟩

/-- Claim C10. A maximum bound given as 0 is silently replaced by the
default 9999 in the power, toughness and mana-cost range checks; in
particular with `power_min = 1` and `power_max = 0` a face with power
"500" is accepted. -/
theorem zeroMax_uses_default (a : Args) (f : Face) :
    power_check { a with power_max := some 0 } f =
      power_check { a with power_max := none } f ∧
    toughness_check { a with tough_max := some 0 } f =
      toughness_check { a with tough_max := none } f ∧
    cmc_check { a with cmc_max := some 0 } f =
      cmc_check { a with cmc_max := none } f ∧
    power_check { power_min := some 1, power_max := some 0 }
      ⟨[], [], some "500", none, none⟩ = true ∧
    toughness_check { tough_min := some 1, tough_max := some 0 }
      ⟨[], [], none, some "500", none⟩ = true ∧
    cmc_check { cmc_min := some 1, cmc_max := some 0 }
      ⟨[], [], none, none, some 500⟩ = true :=
  ⟨rfl, rfl, rfl, by decide, by decide, by decide⟩
